import Mathlib

/-!
Verification of the slop-ocr repository: shallow embedding of the overlay
renderer (`src/renderer/overlay/overlay.ts`), the capture-worker state machine
(`swift/Sources/OCRCli/main.swift`) and the protocol bridge
(`src/main/ocr-bridge.ts`), with theorems settling the spec's claims.

Numeric values carried by the programs (JS numbers / Swift Doubles) are
modelled as rationals; the rotation angle, which goes through `Math.atan2`,
is modelled over the reals.
-/

namespace SlopOCR

/-! ### Overlay renderer data model (overlay.ts) -/

/-- A 2-D point with rational coordinates (models `{x, y}`). -/
structure Pt where
  x : ℚ
  y : ℚ
deriving DecidableEq, Repr

/-- Normalized rectangle (models `boundingBox`). -/
structure NRect where
  x : ℚ
  y : ℚ
  width : ℚ
  height : ℚ
deriving DecidableEq, Repr

/-- One recognized text line, as consumed by the renderer
(models the `TextObservation` interface in overlay.ts). -/
structure TextObservation where
  text : String
  confidence : ℚ
  boundingBox : NRect
  topLeft : Pt
  topRight : Pt
  bottomRight : Pt
  bottomLeft : Pt
deriving DecidableEq, Repr

/-- The payload handed to `renderOCRResults` (models the `OCRData`
interface in overlay.ts). -/
structure OCRData where
  imageWidth : ℚ
  imageHeight : ℚ
  observations : List TextObservation
deriving DecidableEq, Repr

/-- One positioned text element produced by `renderOCRResults`: the styles
set on the created `span` (`left`, `top`, `width`, `height`, the final
`fontSize` set by `fitTextToWidth`) together with the observation it
renders. -/
structure RenderedElem where
  obs : TextObservation
  x : ℚ
  y : ℚ
  width : ℚ
  height : ℚ
  fontSize : ℚ
deriving DecidableEq, Repr

/-- `fitTextToWidth` from overlay.ts.  `measuredWidth` is the element's
`scrollWidth` as measured by the DOM after the font size was set to
`maxFontSize`; the function returns the final font size left on the span.
Source:
```
span.style.fontSize = maxFontSize px
const measuredWidth = span.scrollWidth
if (measuredWidth <= targetWidth) return
const scaledSize = maxFontSize * (targetWidth / measuredWidth)
const finalSize = Math.max(scaledSize, MIN_FONT_SIZE)   -- MIN_FONT_SIZE = 8
span.style.fontSize = finalSize px
``` -/
def fitTextToWidth (measuredWidth targetWidth maxFontSize : ℚ) : ℚ :=
  if measuredWidth ≤ targetWidth then
    maxFontSize
  else
    max (maxFontSize * (targetWidth / measuredWidth)) 8

/-- `calculateRotation` of overlay.ts computes
`Math.atan2(-dy, dx) * 180 / Math.PI` from the top corner points; the pure
corner-difference part, which every claim about the renderer geometry uses. -/
def cornerDelta (obs : TextObservation) : ℚ × ℚ :=
  (obs.topRight.x - obs.topLeft.x, obs.topRight.y - obs.topLeft.y)

/-- Two-argument arctangent on the reals, with the conventions of JavaScript's
`Math.atan2` (in particular `atan2 0 0 = 0`). -/
noncomputable def atan2 (y x : ℝ) : ℝ :=
  if 0 < x then Real.arctan (y / x)
  else if x < 0 then
    (if 0 ≤ y then Real.arctan (y / x) + Real.pi else Real.arctan (y / x) - Real.pi)
  else
    (if 0 < y then Real.pi / 2 else if y < 0 then -(Real.pi / 2) else 0)

/-- `calculateRotation` from overlay.ts:
`atan2(-(topRight.y - topLeft.y), topRight.x - topLeft.x) * (180 / π)`. -/
noncomputable def calculateRotation (obs : TextObservation) : ℝ :=
  atan2 (-((cornerDelta obs).2 : ℝ)) ((cornerDelta obs).1 : ℝ) * (180 / Real.pi)

/-- The renderer applies a CSS rotation transform exactly when
`Math.abs(rotation) > 0.5` (overlay.ts line 126). -/
noncomputable def rotationApplied (obs : TextObservation) : Prop :=
  |calculateRotation obs| > 1/2

/-- The per-observation body of the loop in `renderOCRResults`: computes the
base pixel box, drops the observation when `baseWidth < 10 || baseHeight < 8`,
otherwise expands by 1 pixel per side and sizes the text with
`fitTextToWidth`.  `measure obs maxFontSize` models `span.scrollWidth` for the
span holding `obs.text` at font size `maxFontSize`. -/
def renderObservation (measure : TextObservation → ℚ → ℚ)
    (overlayWidth overlayHeight : ℚ) (obs : TextObservation) :
    Option RenderedElem :=
  let baseX := obs.boundingBox.x * overlayWidth
  let baseY := (1 - obs.boundingBox.y - obs.boundingBox.height) * overlayHeight
  let baseWidth := obs.boundingBox.width * overlayWidth
  let baseHeight := obs.boundingBox.height * overlayHeight
  if baseWidth < 10 ∨ baseHeight < 8 then
    none
  else
    let x := baseX - 1
    let y := baseY - 1
    let width := baseWidth + 2
    let height := baseHeight + 2
    some { obs := obs, x := x, y := y, width := width, height := height,
           fontSize := fitTextToWidth (measure obs height) width height }

/-- `renderOCRResults` from overlay.ts, as the list of positioned text
elements appended to the (previously cleared) container, in observation
order. -/
def renderOCRResults (measure : TextObservation → ℚ → ℚ)
    (overlayWidth overlayHeight : ℚ) (data : OCRData) : List RenderedElem :=
  data.observations.filterMap (renderObservation measure overlayWidth overlayHeight)

/-! ### Wire protocol models (main.swift) -/

/-- A Command sent to the worker (main.swift `struct Command`). -/
structure Command where
  action : String
  languages : Option (List String)
  saveTo : Option String
deriving DecidableEq, Repr

/-- Screen-space rectangle of a window (main.swift `struct WindowBounds`). -/
structure WindowBounds where
  x : ℚ
  y : ℚ
  width : ℚ
  height : ℚ
deriving DecidableEq, Repr

/-- Payload of a successful pick (main.swift `struct WindowSelectedData`). -/
structure WindowSelectedData where
  windowId : Option ℕ
  appName : Option String
  windowTitle : Option String
  bounds : Option WindowBounds
deriving DecidableEq, Repr

/-- Payload of a successful scan (main.swift `struct OCRData`). -/
structure WOCRData where
  imageWidth : ℕ
  imageHeight : ℕ
  observations : List TextObservation
  bounds : Option WindowBounds
deriving DecidableEq, Repr

/-- Version payload of the `ready` message (main.swift `struct ReadyData`). -/
structure ReadyData where
  version : String
deriving DecidableEq, Repr

/-- main.swift `enum ResponseData`. -/
inductive ResponseData where
  | windowSelected (d : WindowSelectedData)
  | ocr (d : WOCRData)
  | ready (d : ReadyData)
deriving DecidableEq, Repr

/-- A Response emitted by the worker (main.swift `struct Response`). -/
structure Response where
  type : String
  success : Bool
  data : Option ResponseData
  error : Option String
deriving DecidableEq, Repr

/-- main.swift `sendError`: a failure response with only `error` set. -/
def sendError (type message : String) : Response :=
  { type := type, success := false, data := none, error := some message }

/-- main.swift `sendSuccess`: a success response with only `data` set. -/
def sendSuccess (type : String) (data : ResponseData) : Response :=
  { type := type, success := true, data := some data, error := none }

/-- The `ready` message sent once from `applicationDidFinishLaunching`. -/
def readyResponse : Response :=
  sendSuccess "ready" (.ready { version := "1.0.0" })

/-! ### Capture worker state machine (main.swift `AppDelegate`) -/

/-- The part of an `SCContentFilter` the worker reads: its `contentRect`. -/
structure SCFilter where
  contentRect : WindowBounds
deriving DecidableEq, Repr

/-- The part of a `CGImage` the worker reads: its pixel dimensions. -/
structure Image where
  width : ℕ
  height : ℕ
deriving DecidableEq, Repr

/-- The worker's mutable fields (main.swift `AppDelegate` properties). -/
structure WorkerState where
  currentFilter : Option SCFilter
  currentWindowID : Option ℕ
  pendingCommand : Option Command
deriving DecidableEq, Repr

/-- The opaque platform capabilities the worker calls, injected so the state
machine is pure: screenshot capture (`SCScreenshotManager.captureImage`),
text recognition (`VNRecognizeTextRequest`, already flattened to the list of
top-candidate observations), the live window-bounds lookup backing
`getCurrentWindowBounds`, and the window-list match backing
`findWindowID(matching:)`. -/
structure WorkerEnv where
  capture : SCFilter → Except String Image
  recognize : Image → List String → Except String (List TextObservation)
  lookupBounds : ℕ → Option WindowBounds
  findWindowID : WindowBounds → Option ℕ

/-- External events driving the worker: reading an empty stdin line (which
`readStdin` skips via its `guard !line.isEmpty else continue` before any
decoding), reading a non-empty stdin line together with its JSON decoding
(`none` when the line failed to decode as a Command), and the three
`SCContentSharingPickerObserver` callbacks. -/
inductive WorkerEvent where
  | emptyLine
  | line (cmd : Option Command)
  | pickerDidUpdate (filter : SCFilter)
  | pickerDidCancel
  | pickerStartFailed (msg : String)
deriving DecidableEq, Repr

/-- Side effects requested by a transition (the picker presentation and
`NSApp.terminate`). -/
inductive Effect where
  | showPicker
  | terminate
deriving DecidableEq, Repr

/-- main.swift `performOCR`: recognize text and emit the `scan` response
(recognition failure yields `sendError "scan" ("OCR failed: " ...)`). -/
def performOCR (env : WorkerEnv) (image : Image) (languages : List String)
    (bounds : WindowBounds) : List Response :=
  match env.recognize image languages with
  | .error e => [sendError "scan" ("OCR failed: " ++ e)]
  | .ok obss =>
      [sendSuccess "scan" (.ocr { imageWidth := image.width,
                                  imageHeight := image.height,
                                  observations := obss, bounds := some bounds })]

/-- main.swift `executeScan`: guard on a selected filter, capture, re-resolve
the window's current bounds (falling back to the filter's `contentRect` when
`getCurrentWindowBounds` yields nothing), then recognize.  The best-effort
`saveTo` write is a silent side effect and does not appear in the responses. -/
def executeScan (env : WorkerEnv) (st : WorkerState) (command : Command) :
    List Response :=
  match st.currentFilter with
  | none => [sendError "scan" "No window selected"]
  | some filter =>
      match env.capture filter with
      | .error e => [sendError "scan" ("Failed: " ++ e)]
      | .ok image =>
          let languages := command.languages.getD ["ja", "en"]
          let currentBounds :=
            (st.currentWindowID.bind env.lookupBounds).getD filter.contentRect
          performOCR env image languages currentBounds

/-- main.swift `handleCommand`: the `switch command.action`. -/
def handleCommand (env : WorkerEnv) (st : WorkerState) (command : Command) :
    WorkerState × List Response × List Effect :=
  if command.action = "pick" then
    (st, [], [.showPicker])
  else if command.action = "scan" then
    let st' := { st with pendingCommand := some command }
    if st'.currentFilter.isSome then
      (st', executeScan env st' command, [])
    else
      (st', [], [.showPicker])
  else if command.action = "quit" then
    (st, [], [.terminate])
  else
    (st, [sendError "error" ("Unknown action: " ++ command.action)], [])

/-- main.swift `contentSharingPicker(_:didUpdateWith:for:)`: store the filter,
recover a window id from the live window list, emit the `pick` success
response, and run any pending scan before clearing it. -/
def pickerDidUpdate (env : WorkerEnv) (st : WorkerState) (filter : SCFilter) :
    WorkerState × List Response :=
  let rect := filter.contentRect
  let wid := env.findWindowID rect
  let st1 : WorkerState :=
    { st with currentFilter := some filter, currentWindowID := wid }
  let pickResp :=
    sendSuccess "pick" (.windowSelected
      { windowId := wid, appName := none, windowTitle := none,
        bounds := some rect })
  match st1.pendingCommand with
  | some pending =>
      ({ st1 with pendingCommand := none }, pickResp :: executeScan env st1 pending)
  | none => (st1, [pickResp])

/-- One worker transition, following main.swift `readStdin`: an empty stdin
line is skipped silently (`guard !line.isEmpty else continue` — no response,
no state change); a non-empty line that fails to decode yields the
`Invalid JSON command` error; a decoded line is dispatched to
`handleCommand`; and the three picker callbacks act as in main.swift. -/
def workerStep (env : WorkerEnv) (st : WorkerState) (ev : WorkerEvent) :
    WorkerState × List Response × List Effect :=
  match ev with
  | .emptyLine => (st, [], [])
  | .line none => (st, [sendError "error" "Invalid JSON command"], [])
  | .line (some command) => handleCommand env st command
  | .pickerDidUpdate filter =>
      let (st', rs) := pickerDidUpdate env st filter
      (st', rs, [])
  | .pickerDidCancel =>
      ({ st with pendingCommand := none },
       [sendError "pick" "User cancelled window selection"], [])
  | .pickerStartFailed msg =>
      ({ st with pendingCommand := none },
       [sendError "pick" ("Picker failed to start: " ++ msg)], [])

/-- The `NoTarget` state of the spec: no filter selected, nothing pending. -/
def noTargetState : WorkerState :=
  { currentFilter := none, currentWindowID := none, pendingCommand := none }

/-! ### Protocol bridge (ocr-bridge.ts) -/

/-- The loosely-typed `data` field of a `CLIResponse` as the bridge declares
it: every field optional. -/
structure BridgeData where
  version : Option String
  windowId : Option ℕ
  appName : Option String
  windowTitle : Option String
  bounds : Option WindowBounds
  imageWidth : Option ℕ
  imageHeight : Option ℕ
  observations : Option (List TextObservation)
deriving DecidableEq, Repr

/-- A parsed response line as seen by the bridge (`interface CLIResponse`). -/
structure CLIResponse where
  type : String
  success : Bool
  data : Option BridgeData
  error : Option String
deriving DecidableEq, Repr

/-- JavaScript `a || b` on an optional string: the fallback is used when the
string is absent or empty (both are falsy). -/
def jsOrElse (s : Option String) (fallback : String) : String :=
  match s with
  | some e => if e = "" then fallback else e
  | none => fallback

/-- What `scan()` resolves with: `{ imageWidth: data.imageWidth!,
imageHeight: data.imageHeight!, observations: data.observations || [],
bounds: data.bounds }`.  The `!` assertions are type-level only, so the
fields stay whatever the wire carried (possibly absent). -/
structure BridgeOCRData where
  imageWidth : Option ℕ
  imageHeight : Option ℕ
  observations : List TextObservation
  bounds : Option WindowBounds
deriving DecidableEq, Repr

/-- Extraction of the scan resolution value from a response's data. -/
def scanResolveData (d : BridgeData) : BridgeOCRData :=
  { imageWidth := d.imageWidth, imageHeight := d.imageHeight,
    observations := d.observations.getD [], bounds := d.bounds }

/-- What `pick()` resolves with: each field defaulted with `?? null`. -/
structure BridgePickData where
  windowId : Option ℕ
  appName : Option String
  windowTitle : Option String
  bounds : Option WindowBounds
deriving DecidableEq, Repr

/-- How a pending bridge call settles. -/
inductive ScanSettle where
  | resolve (d : BridgeOCRData)
  | reject (msg : String)
deriving DecidableEq, Repr

/-- How a pending `pick()` call settles. -/
inductive PickSettle where
  | resolve (d : BridgePickData)
  | reject (msg : String)
deriving DecidableEq, Repr

/-- The response handler installed by `scan()` (ocr-bridge.ts lines 183-208):
`none` means the handler stays installed and the call stays pending; `some s`
means the handler removes itself and settles the promise with `s`. -/
def scanHandler (r : CLIResponse) : Option ScanSettle :=
  if r.type = "scan" ∨ r.type = "pick" then
    if r.type = "pick" then
      if r.success = false then
        some (.reject (jsOrElse r.error "Window selection cancelled"))
      else
        none
    else
      match r.data with
      | some d =>
          if r.success then some (.resolve (scanResolveData d))
          else some (.reject (jsOrElse r.error "Scan failed"))
      | none => some (.reject (jsOrElse r.error "Scan failed"))
  else
    none

/-- The settling of one `scan()` call over the stream of responses the bridge
emits to its handlers, in arrival order: the first response the handler
settles on wins (the handler is removed at that point), `none` when the call
is still pending after the whole stream. -/
def scanRun : List CLIResponse → Option ScanSettle
  | [] => none
  | r :: rest =>
      match scanHandler r with
      | some s => some s
      | none => scanRun rest

/-- The response handler installed by `pick()` (ocr-bridge.ts lines 154-169). -/
def pickHandler (r : CLIResponse) : Option PickSettle :=
  if r.type = "pick" then
    match r.data with
    | some d =>
        if r.success then
          some (.resolve { windowId := d.windowId, appName := d.appName,
                           windowTitle := d.windowTitle, bounds := d.bounds })
        else some (.reject (jsOrElse r.error "Pick failed"))
    | none => some (.reject (jsOrElse r.error "Pick failed"))
  else
    none

/-- An occurrence observed by a pending `pick()` call: a response event, or
the firing of its `setTimeout` timer. -/
inductive PickOcc where
  | resp (r : CLIResponse)
  | timerFire
deriving DecidableEq, Repr

/-- Run state of one `pick()` call: whether the `response` listener is still
installed, whether the timeout is still scheduled (not cleared), and the
settlement, stamped with the time (milliseconds) at which it happened. -/
structure PickCallState where
  handlerActive : Bool
  timerActive : Bool
  settled : Option (ℕ × PickSettle)
deriving DecidableEq, Repr

/-- State of `pick()` right after `sendCommand`: listener installed, timer
scheduled, promise pending. -/
def pickInit : PickCallState :=
  { handlerActive := true, timerActive := true, settled := none }

/-- One occurrence processed by a pending `pick()` call at time `t`.
The timer callback removes the listener and rejects with
`Window selection timed out`; it does nothing if `clearTimeout` already ran.
The listener, when still installed, ignores non-`pick` responses and
otherwise clears the timer, removes itself and settles; a response arriving
after the listener was removed is not observed. -/
def pickStep (s : PickCallState) (t : ℕ) (o : PickOcc) : PickCallState :=
  match o with
  | .timerFire =>
      if s.timerActive then
        { handlerActive := false, timerActive := false,
          settled := some (t, .reject "Window selection timed out") }
      else s
  | .resp r =>
      if s.handlerActive then
        match pickHandler r with
        | some settle =>
            { handlerActive := false, timerActive := false,
              settled := some (t, settle) }
        | none => s
      else s

/-- Process a time-ordered schedule of occurrences. -/
def pickRun (sched : List (ℕ × PickOcc)) : PickCallState :=
  sched.foldl (fun s p => pickStep s p.1 p.2) pickInit

/-! ### Wire codec (JSON.stringify in sendCommand / JSONDecoder in readStdin) -/

/-- JSON values, the common wire format. -/
inductive Json where
  | null
  | bool (b : Bool)
  | num (q : ℚ)
  | str (s : String)
  | arr (elems : List Json)
  | obj (fields : List (String × Json))

/-- The bridge's `sendCommand(JSON.stringify({action, ...options}))` as a
JSON object: the required `action` plus the optional `languages` and
`saveTo` fields, omitted when absent. -/
def encodeCommand (c : Command) : Json :=
  .obj ([("action", Json.str c.action)]
    ++ (match c.languages with
        | some ls => [("languages", Json.arr (ls.map Json.str))]
        | none => [])
    ++ (match c.saveTo with
        | some p => [("saveTo", Json.str p)]
        | none => []))

/-- First field with the given key (JSON object field lookup). -/
def lookupField (fields : List (String × Json)) (key : String) : Option Json :=
  (fields.find? (fun f => f.1 = key)).map Prod.snd

/-- Decode a JSON string. -/
def decodeString : Json → Option String
  | .str s => some s
  | _ => none

/-- Decode each element of an unkeyed container as a string, in order. -/
def decodeStrings : List Json → Option (List String)
  | [] => some []
  | j :: rest => do
      let s ← decodeString j
      let tail ← decodeStrings rest
      some (s :: tail)

/-- Decode a JSON array of strings. -/
def decodeStringList : Json → Option (List String)
  | .arr es => decodeStrings es
  | _ => none

/-- An optional field, Swift `Codable` semantics: a missing key decodes to
`nil`, a present key must decode at the right type. -/
def decodeOptField {α : Type} (dec : Json → Option α)
    (fields : List (String × Json)) (key : String) : Option (Option α) :=
  match lookupField fields key with
  | none => some none
  | some j => (dec j).map some

/-- `JSONDecoder().decode(Command.self, ...)` on a JSON value: `action` is a
required string, `languages` an optional string array, `saveTo` an optional
string (main.swift `struct Command: Codable`). -/
def decodeCommand : Json → Option Command
  | .obj fields => do
      let action ← lookupField fields "action" >>= decodeString
      let languages ← decodeOptField decodeStringList fields "languages"
      let saveTo ← decodeOptField decodeString fields "saveTo"
      some { action := action, languages := languages, saveTo := saveTo }
  | _ => none

/-! ### Invariants and concrete fixtures -/

/-- The spec's Response invariant: exactly one of `data`/`error` is populated,
according to `success`. -/
def respInvariant (r : Response) : Prop :=
  (r.success = true → r.data.isSome = true ∧ r.error = none) ∧
  (r.success = false → r.error.isSome = true ∧ r.data = none)

/-- A concrete platform environment used to instantiate universally
quantified theorems: capture yields an 800×600 image, recognition yields no
observations, no live window lookup succeeds. -/
def testEnv : WorkerEnv :=
  { capture := fun _ => .ok { width := 800, height := 600 },
    recognize := fun _ _ => .ok [],
    lookupBounds := fun _ => none,
    findWindowID := fun _ => none }

/-- A concrete filter for instantiating picker events. -/
def testFilter : SCFilter :=
  { contentRect := { x := 100, y := 100, width := 400, height := 300 } }

/-- A concrete axis-aligned observation: `topLeft = (0,1)`,
`topRight = (1,1)`, full-square bounding box. -/
def axisObs : TextObservation :=
  { text := "hello", confidence := 1,
    boundingBox := { x := 0, y := 0, width := 1, height := 1 },
    topLeft := { x := 0, y := 1 }, topRight := { x := 1, y := 1 },
    bottomRight := { x := 1, y := 0 }, bottomLeft := { x := 0, y := 0 } }

/-- A tiny observation (half the unit square) for witness instances. -/
def halfObs : TextObservation :=
  { text := "hi", confidence := 1,
    boundingBox := { x := 0, y := 0, width := 1/2, height := 1/2 },
    topLeft := { x := 0, y := 1/2 }, topRight := { x := 1/2, y := 1/2 },
    bottomRight := { x := 1/2, y := 0 }, bottomLeft := { x := 0, y := 0 } }

/-- A constant measurement oracle: every span measures 100 pixels wide. -/
def constMeasure : TextObservation → ℚ → ℚ := fun _ _ => 100

/-- The element built for a surviving observation, written out. -/
def mkElem (measure : TextObservation → ℚ → ℚ) (overlayWidth overlayHeight : ℚ)
    (obs : TextObservation) : RenderedElem :=
  { obs := obs,
    x := obs.boundingBox.x * overlayWidth - 1,
    y := (1 - obs.boundingBox.y - obs.boundingBox.height) * overlayHeight - 1,
    width := obs.boundingBox.width * overlayWidth + 2,
    height := obs.boundingBox.height * overlayHeight + 2,
    fontSize := fitTextToWidth
      (measure obs (obs.boundingBox.height * overlayHeight + 2))
      (obs.boundingBox.width * overlayWidth + 2)
      (obs.boundingBox.height * overlayHeight + 2) }

/-- A scan success payload as the bridge would receive it. -/
def scanOkData : BridgeData :=
  { version := none, windowId := none, appName := none, windowTitle := none,
    bounds := some { x := 100, y := 100, width := 400, height := 300 },
    imageWidth := some 800, imageHeight := some 600, observations := some [] }

/-- A successful intermediate `pick` response on the wire. -/
def pickOkResp : CLIResponse :=
  { type := "pick", success := true, data := none, error := none }

/-- A failed (user-cancelled) `pick` response on the wire. -/
def pickFailResp : CLIResponse :=
  { type := "pick", success := false, data := none,
    error := some "User cancelled window selection" }

/-- A successful `scan` response on the wire. -/
def scanOkResp : CLIResponse :=
  { type := "scan", success := true, data := some scanOkData, error := none }

/-- A `ready` response on the wire. -/
def readyCLIResp : CLIResponse :=
  { type := "ready", success := true, data := none, error := none }

/-- A bare scan command. -/
def scanCmd : Command := { action := "scan", languages := none, saveTo := none }

/-- A command with an action the worker does not know. -/
def fooCmd : Command := { action := "foo", languages := none, saveTo := none }

/-! ## Theorems -/

/-- `renderObservation` keeps an observation exactly when its base pixel box
is at least 10 wide and 8 tall. -/
lemma renderObservation_eq (measure : TextObservation → ℚ → ℚ)
    (W H : ℚ) (obs : TextObservation) :
    renderObservation measure W H obs =
      if 10 ≤ obs.boundingBox.width * W ∧ 8 ≤ obs.boundingBox.height * H then
        some (mkElem measure W H obs)
      else none := by
  by_cases h : 10 ≤ obs.boundingBox.width * W ∧ 8 ≤ obs.boundingBox.height * H
  · rw [if_pos h]
    rw [renderObservation, if_neg]
    · rfl
    · push_neg
      exact ⟨h.1, h.2⟩
  · rw [if_neg h]
    rw [renderObservation, if_pos]
    rw [Classical.not_and_iff_or_not_not] at h
    rcases h with h | h
    · exact Or.inl (lt_of_not_le h)
    · exact Or.inr (lt_of_not_le h)

/-- `fitTextToWidth` stays between the minimum font size and the maximum,
whenever the target width is positive and the maximum is at least the
minimum. -/
lemma fitTextToWidth_bounds (m t f : ℚ) (ht : 0 < t) (hf : 8 ≤ f) :
    8 ≤ fitTextToWidth m t f ∧ fitTextToWidth m t f ≤ f := by
  unfold fitTextToWidth
  split_ifs with h
  · exact ⟨hf, le_refl f⟩
  · push_neg at h
    constructor
    · exact le_max_right _ _
    · apply max_le _ hf
      have hm : 0 < m := lt_trans ht h
      have hratio : t / m ≤ 1 := by
        rw [div_le_one hm]
        exact le_of_lt h
      calc f * (t / m) ≤ f * 1 := by
            apply mul_le_mul_of_nonneg_left hratio
            linarith
        _ = f := mul_one f

/-- C5: the renderer produces one positioned element per observation whose
base pixel box is at least 10 wide and 8 tall — dropped observations
contribute nothing — and each surviving element sits at
`(bx·W − 1, (1 − by − bh)·H − 1)` with size `(bw·W + 2, bh·H + 2)`, the
transformed box expanded by 1 pixel on every side. -/
theorem claim_C5_render_filter_and_geometry (measure : TextObservation → ℚ → ℚ)
    (W H : ℚ) (data : OCRData) :
    renderOCRResults measure W H data =
      (data.observations.filter (fun obs =>
        decide (10 ≤ obs.boundingBox.width * W ∧
                8 ≤ obs.boundingBox.height * H))).map (fun obs =>
        { obs := obs,
          x := obs.boundingBox.x * W - 1,
          y := (1 - obs.boundingBox.y - obs.boundingBox.height) * H - 1,
          width := obs.boundingBox.width * W + 2,
          height := obs.boundingBox.height * H + 2,
          fontSize := fitTextToWidth
            (measure obs (obs.boundingBox.height * H + 2))
            (obs.boundingBox.width * W + 2)
            (obs.boundingBox.height * H + 2) }) := by
  unfold renderOCRResults
  induction data.observations with
  | nil => rfl
  | cons o os ih =>
      by_cases h : 10 ≤ o.boundingBox.width * W ∧ 8 ≤ o.boundingBox.height * H
      · simp [List.filterMap_cons, List.filter_cons, renderObservation_eq, h,
              ih, mkElem]
      · simp [List.filterMap_cons, List.filter_cons, renderObservation_eq, h, ih]

/-- C3: every element the renderer sizes gets a font size between the
8-pixel floor and the box's pixel height, and the size is the box height
when the measured text width fits the padded box width, otherwise the
height scaled by `target/measured` and clamped below at 8. -/
theorem claim_C3_fit_text_bounds (measure : TextObservation → ℚ → ℚ)
    (W H : ℚ) (data : OCRData) (e : RenderedElem)
    (he : e ∈ renderOCRResults measure W H data) :
    8 ≤ e.fontSize ∧ e.fontSize ≤ e.height ∧
    e.fontSize = (if measure e.obs e.height ≤ e.width then e.height
                  else max (e.height * (e.width / measure e.obs e.height)) 8) := by
  obtain ⟨obs, hmem, hro⟩ := List.mem_filterMap.mp he
  rw [renderObservation_eq] at hro
  split_ifs at hro with hc
  · injection hro with hro
    subst hro
    have hw : (0:ℚ) < obs.boundingBox.width * W + 2 := by linarith [hc.1]
    have hf : (8:ℚ) ≤ obs.boundingBox.height * H + 2 := by linarith [hc.2]
    have hb := fitTextToWidth_bounds
      (measure obs (obs.boundingBox.height * H + 2))
      (obs.boundingBox.width * W + 2)
      (obs.boundingBox.height * H + 2) hw hf
    refine ⟨?_, ?_, ?_⟩
    · simpa [mkElem] using hb.1
    · simpa [mkElem] using hb.2
    · simp [mkElem, fitTextToWidth]

/-- Witness for C3 at a concrete surviving element on a 100×100 overlay. -/
theorem claim_C3_witness :
    8 ≤ (mkElem constMeasure 100 100 halfObs).fontSize ∧
    (mkElem constMeasure 100 100 halfObs).fontSize ≤
      (mkElem constMeasure 100 100 halfObs).height ∧
    (mkElem constMeasure 100 100 halfObs).fontSize =
      (if constMeasure (mkElem constMeasure 100 100 halfObs).obs
            (mkElem constMeasure 100 100 halfObs).height ≤
          (mkElem constMeasure 100 100 halfObs).width then
        (mkElem constMeasure 100 100 halfObs).height
       else
        max ((mkElem constMeasure 100 100 halfObs).height *
             ((mkElem constMeasure 100 100 halfObs).width /
              constMeasure (mkElem constMeasure 100 100 halfObs).obs
                (mkElem constMeasure 100 100 halfObs).height)) 8) :=
  claim_C3_fit_text_bounds constMeasure 100 100
    { imageWidth := 800, imageHeight := 600, observations := [halfObs] }
    (mkElem constMeasure 100 100 halfObs) (by
      have h : renderOCRResults constMeasure 100 100
          { imageWidth := 800, imageHeight := 600, observations := [halfObs] } =
          [mkElem constMeasure 100 100 halfObs] := by
        simp only [renderOCRResults, List.filterMap_cons, List.filterMap_nil,
          renderObservation_eq]
        rw [if_pos (by constructor <;> · simp [halfObs]; norm_num)]
      rw [h]
      exact List.mem_singleton_self _)

/-- C6: the rotation angle is `atan2(−Δy, Δx)` in degrees for the vector from
`topLeft` to `topRight`; rotation is applied only above the 0.5° threshold;
for the axis-aligned observation with `topLeft = (0,1)`, `topRight = (1,1)`
the angle is 0° and no rotation transform is applied. -/
theorem claim_C6_rotation_angle :
    (∀ obs : TextObservation, calculateRotation obs =
      atan2 (-(((obs.topRight.y - obs.topLeft.y : ℚ)) : ℝ))
            (((obs.topRight.x - obs.topLeft.x : ℚ)) : ℝ) * (180 / Real.pi)) ∧
    (∀ obs : TextObservation,
      rotationApplied obs ↔ |calculateRotation obs| > 1/2) ∧
    calculateRotation axisObs = 0 ∧ ¬ rotationApplied axisObs := by
  have hzero : calculateRotation axisObs = 0 := by
    simp only [calculateRotation, cornerDelta, axisObs]
    norm_num [atan2]
  refine ⟨fun obs => rfl, fun obs => Iff.rfl, hzero, ?_⟩
  simp only [rotationApplied, hzero]
  norm_num

/-- C7 counterexample: an empty stdin line fails to parse as a Command, yet
the worker skips it silently — no response at all is emitted (in particular
no `error`-typed one), refuting the claim's "every line that fails to parse
yields an error response". -/
theorem claim_C7_counterexample :
    workerStep testEnv noTargetState WorkerEvent.emptyLine =
      (noTargetState, [], []) := rfl

/-- C7 (amended): an empty line is skipped silently with no response; an
unknown action on a decoded non-empty line yields an `error`-typed failure
response naming the action; a non-empty line that fails to decode yields the
`Invalid JSON command` error; in all cases the worker state is unchanged. -/
theorem claim_C7_unknown_action (env : WorkerEnv) (st : WorkerState) :
    (∀ cmd : Command,
      cmd.action ≠ "pick" → cmd.action ≠ "scan" → cmd.action ≠ "quit" →
      workerStep env st (.line (some cmd)) =
        (st, [sendError "error" ("Unknown action: " ++ cmd.action)], []) ∧
      (sendError "error" ("Unknown action: " ++ cmd.action)).success = false) ∧
    workerStep env st (.line none) =
      (st, [sendError "error" "Invalid JSON command"], []) ∧
    workerStep env st .emptyLine = (st, [], []) := by
  refine ⟨fun cmd h1 h2 h3 => ⟨?_, rfl⟩, rfl, rfl⟩
  simp [workerStep, handleCommand, h1, h2, h3]

/-- Witness for C7: the action `foo` gets `Unknown action: foo` and the
state is untouched. -/
theorem claim_C7_witness :
    workerStep testEnv noTargetState (.line (some fooCmd)) =
      (noTargetState, [sendError "error" ("Unknown action: " ++ fooCmd.action)], []) ∧
    (sendError "error" ("Unknown action: " ++ fooCmd.action)).success = false :=
  (claim_C7_unknown_action testEnv noTargetState).1 fooCmd
    (by decide) (by decide) (by decide)

/-- `sendError` satisfies the Response invariant. -/
lemma sendError_inv (t m : String) : respInvariant (sendError t m) := by
  simp [respInvariant, sendError]

/-- `sendSuccess` satisfies the Response invariant. -/
lemma sendSuccess_inv (t : String) (d : ResponseData) :
    respInvariant (sendSuccess t d) := by
  simp [respInvariant, sendSuccess]

/-- Every response `performOCR` emits satisfies the Response invariant. -/
lemma mem_performOCR_inv (env : WorkerEnv) (img : Image) (langs : List String)
    (bounds : WindowBounds) (r : Response) (hr : r ∈ performOCR env img langs bounds) :
    respInvariant r := by
  unfold performOCR at hr
  split at hr
  · rw [List.mem_singleton] at hr
    subst hr
    exact sendError_inv _ _
  · rw [List.mem_singleton] at hr
    subst hr
    exact sendSuccess_inv _ _

/-- Every response `executeScan` emits satisfies the Response invariant. -/
lemma mem_executeScan_inv (env : WorkerEnv) (st : WorkerState) (c : Command)
    (r : Response) (hr : r ∈ executeScan env st c) : respInvariant r := by
  unfold executeScan at hr
  split at hr
  · rw [List.mem_singleton] at hr
    subst hr
    exact sendError_inv _ _
  · split at hr
    · rw [List.mem_singleton] at hr
      subst hr
      exact sendError_inv _ _
    · exact mem_performOCR_inv _ _ _ _ _ hr

/-- C9: the `ready` message and every response emitted by any worker
transition populate exactly one of `data`/`error`, according to `success`. -/
theorem claim_C9_exactly_one_of :
    respInvariant readyResponse ∧
    ∀ (env : WorkerEnv) (st : WorkerState) (ev : WorkerEvent) (r : Response),
      r ∈ (workerStep env st ev).2.1 → respInvariant r := by
  refine ⟨sendSuccess_inv _ _, fun env st ev r hr => ?_⟩
  cases ev with
  | emptyLine => simp [workerStep] at hr
  | line o =>
      cases o with
      | none =>
          simp only [workerStep, List.mem_singleton] at hr
          subst hr
          exact sendError_inv _ _
      | some cmd =>
          simp only [workerStep] at hr
          unfold handleCommand at hr
          by_cases h1 : cmd.action = "pick"
          · simp [h1] at hr
          · by_cases h2 : cmd.action = "scan"
            · cases hsf : st.currentFilter.isSome with
              | false => simp [h1, h2, hsf] at hr
              | true =>
                  simp only [h1, h2, hsf, if_true, if_false, ite_true,
                    ite_false, eq_self_iff_true] at hr
                  simp at hr
                  exact mem_executeScan_inv _ _ _ _ hr
            · by_cases h3 : cmd.action = "quit"
              · simp [h1, h2, h3] at hr
              · simp only [h1, h2, h3, if_false, ite_false] at hr
                simp at hr
                subst hr
                exact sendError_inv _ _
  | pickerDidUpdate f =>
      simp only [workerStep, pickerDidUpdate] at hr
      cases hp : st.pendingCommand with
      | none =>
          rw [hp] at hr
          simp only [List.mem_singleton] at hr
          subst hr
          exact sendSuccess_inv _ _
      | some pending =>
          rw [hp] at hr
          simp only [List.mem_cons] at hr
          rcases hr with hr | hr
          · subst hr
            exact sendSuccess_inv _ _
          · exact mem_executeScan_inv _ _ _ _ hr
  | pickerDidCancel =>
      simp only [workerStep, List.mem_singleton] at hr
      subst hr
      exact sendError_inv _ _
  | pickerStartFailed m =>
      simp only [workerStep, List.mem_singleton] at hr
      subst hr
      exact sendError_inv _ _

/-- Witness for C9 at the parse-failure response of a concrete transition. -/
theorem claim_C9_witness : respInvariant (sendError "error" "Invalid JSON command") :=
  claim_C9_exactly_one_of.2 testEnv noTargetState (.line none) _
    (by simp [workerStep])

/-- Decoding a list of JSON strings recovers the original strings. -/
lemma decodeStrings_map (ls : List String) :
    decodeStrings (ls.map Json.str) = some ls := by
  induction ls with
  | nil => rfl
  | cons s rest ih => simp [decodeStrings, ih, decodeString]

/-- C8: for every valid Command the wire codec round-trips, preserving
`action`, the `languages` sequence with its order, and `saveTo`. -/
theorem claim_C8_roundtrip (c : Command)
    (h : c.action = "pick" ∨ c.action = "scan" ∨ c.action = "quit") :
    decodeCommand (encodeCommand c) = some c := by
  obtain ⟨a, ls, s⟩ := c
  cases ls <;> cases s <;>
    simp [encodeCommand, decodeCommand, lookupField, decodeOptField,
          decodeString, decodeStringList, decodeStrings_map, List.find?]

/-- Witness for C8 on a concrete scan command with languages and a path. -/
theorem claim_C8_witness :
    decodeCommand (encodeCommand
      { action := "scan", languages := some ["ja", "en"],
        saveTo := some "/tmp/cap.png" }) =
      some { action := "scan", languages := some ["ja", "en"],
             saveTo := some "/tmp/cap.png" } :=
  claim_C8_roundtrip _ (Or.inr (Or.inl rfl))

/-- `executeScan` always emits exactly one response, and it is `scan`-typed. -/
lemma executeScan_types (env : WorkerEnv) (st : WorkerState) (c : Command) :
    (executeScan env st c).map Response.type = ["scan"] := by
  unfold executeScan
  split
  · rfl
  · split
    · rfl
    · dsimp only
      unfold performOCR
      split
      · rfl
      · rfl

/-- C1: in `NoTarget`, a `scan` command records the request as pending and
opens the picker with no response; a subsequent successful pick emits the
`pick` success response followed by exactly one `scan`-typed response and
clears the pending record; a cancellation or a start failure emits only the
`pick` failure response and drops the pending record. -/
theorem claim_C1_scan_pick_then_scan (env : WorkerEnv) (cmd : Command)
    (h : cmd.action = "scan") (f : SCFilter) (m : String) :
    workerStep env noTargetState (.line (some cmd)) =
      ({ noTargetState with pendingCommand := some cmd }, [], [.showPicker]) ∧
    (workerStep env { noTargetState with pendingCommand := some cmd }
        (.pickerDidUpdate f) =
      ({ currentFilter := some f,
         currentWindowID := env.findWindowID f.contentRect,
         pendingCommand := none },
       sendSuccess "pick" (.windowSelected
          { windowId := env.findWindowID f.contentRect, appName := none,
            windowTitle := none, bounds := some f.contentRect }) ::
         executeScan env
           { currentFilter := some f,
             currentWindowID := env.findWindowID f.contentRect,
             pendingCommand := some cmd } cmd,
       []) ∧
     (executeScan env
        { currentFilter := some f,
          currentWindowID := env.findWindowID f.contentRect,
          pendingCommand := some cmd } cmd).map Response.type = ["scan"]) ∧
    workerStep env { noTargetState with pendingCommand := some cmd }
        .pickerDidCancel =
      (noTargetState, [sendError "pick" "User cancelled window selection"], []) ∧
    workerStep env { noTargetState with pendingCommand := some cmd }
        (.pickerStartFailed m) =
      (noTargetState, [sendError "pick" ("Picker failed to start: " ++ m)], []) := by
  refine ⟨?_, ⟨?_, executeScan_types env _ cmd⟩, ?_, ?_⟩
  · simp [workerStep, handleCommand, h, noTargetState]
  · simp [workerStep, pickerDidUpdate, noTargetState]
  · simp [workerStep, noTargetState]
  · simp [workerStep, noTargetState]

/-- Witness for C1: the first and the cancellation transition at a concrete
environment, command and filter. -/
theorem claim_C1_witness :
    workerStep testEnv noTargetState (.line (some scanCmd)) =
      ({ noTargetState with pendingCommand := some scanCmd },
       [], [.showPicker]) ∧
    workerStep testEnv { noTargetState with pendingCommand := some scanCmd }
        .pickerDidCancel =
      (noTargetState, [sendError "pick" "User cancelled window selection"], []) :=
  ⟨(claim_C1_scan_pick_then_scan testEnv scanCmd rfl testFilter "x").1,
   (claim_C1_scan_pick_then_scan testEnv scanCmd rfl testFilter "x").2.2.1⟩

/-- C4: a `scan` command in `TargetAcquired` sets the pending-command field
before the immediate capture+recognize and the transition leaves it set; a
later successful pick therefore emits its `pick` success response plus an
additional `scan`-typed response re-executing the stale scan, and only then
clears the pending record. -/
theorem claim_C4_stale_pending_rescan (env : WorkerEnv) (cmd : Command)
    (h : cmd.action = "scan") (f f' : SCFilter) (wid : Option ℕ) :
    workerStep env
        { currentFilter := some f, currentWindowID := wid, pendingCommand := none }
        (.line (some cmd)) =
      ({ currentFilter := some f, currentWindowID := wid,
         pendingCommand := some cmd },
       executeScan env
         { currentFilter := some f, currentWindowID := wid,
           pendingCommand := some cmd } cmd,
       []) ∧
    workerStep env
        { currentFilter := some f, currentWindowID := wid,
          pendingCommand := some cmd }
        (.pickerDidUpdate f') =
      ({ currentFilter := some f',
         currentWindowID := env.findWindowID f'.contentRect,
         pendingCommand := none },
       sendSuccess "pick" (.windowSelected
          { windowId := env.findWindowID f'.contentRect, appName := none,
            windowTitle := none, bounds := some f'.contentRect }) ::
         executeScan env
           { currentFilter := some f',
             currentWindowID := env.findWindowID f'.contentRect,
             pendingCommand := some cmd } cmd,
       []) ∧
    (executeScan env
       { currentFilter := some f',
         currentWindowID := env.findWindowID f'.contentRect,
         pendingCommand := some cmd } cmd).map Response.type = ["scan"] := by
  refine ⟨?_, ?_, executeScan_types env _ cmd⟩
  · simp [workerStep, handleCommand, h]
  · simp [workerStep, pickerDidUpdate]

/-- Witness for C4 at a concrete environment, command and filters. -/
theorem claim_C4_witness :
    workerStep testEnv
        { currentFilter := some testFilter, currentWindowID := none,
          pendingCommand := none }
        (.line (some scanCmd)) =
      ({ currentFilter := some testFilter, currentWindowID := none,
         pendingCommand := some scanCmd },
       executeScan testEnv
         { currentFilter := some testFilter, currentWindowID := none,
           pendingCommand := some scanCmd } scanCmd,
       []) :=
  (claim_C4_stale_pending_rescan testEnv scanCmd rfl testFilter testFilter none).1

/-- A response that is not `scan`-typed and not a failing pick does not
settle the scan handler. -/
lemma scanHandler_none_of (r : CLIResponse) (h1 : r.type ≠ "scan")
    (h2 : r.type = "pick" → r.success = true) : scanHandler r = none := by
  unfold scanHandler
  by_cases hp : r.type = "pick"
  · simp [hp, h2 hp]
  · simp [h1, hp]

/-- Responses the handler ignores can be dropped from the front of the
stream. -/
lemma scanRun_append (pre l : List CLIResponse)
    (h : ∀ r ∈ pre, scanHandler r = none) :
    scanRun (pre ++ l) = scanRun l := by
  induction pre with
  | nil => rfl
  | cons r rest ih =>
      rw [List.cons_append]
      show (match scanHandler r with
            | some s => some s
            | none => scanRun (rest ++ l)) = scanRun l
      rw [h r (List.mem_cons_self _ _)]
      exact ih (fun r' hr' => h r' (List.mem_cons_of_mem _ hr'))

/-- C2: with only silently-consumed responses before it (non-`scan`-typed,
and any `pick`-typed one successful), a failing `pick` response rejects the
scan call immediately with the pick's error message, a successful `pick`
response is consumed silently (the handler neither resolves nor rejects and
keeps waiting), and a `scan`-typed success response resolves the call with
the recognition payload. -/
theorem claim_C2_scan_pick_interleaving (pre rest : List CLIResponse)
    (r : CLIResponse)
    (hpre : ∀ r' ∈ pre, r'.type ≠ "scan" ∧ (r'.type = "pick" → r'.success = true)) :
    (r.type = "pick" → r.success = false →
      scanRun (pre ++ r :: rest) =
        some (.reject (jsOrElse r.error "Window selection cancelled"))) ∧
    (r.type = "pick" → r.success = true →
      scanHandler r = none ∧ scanRun (pre ++ r :: rest) = scanRun rest) ∧
    (∀ d, r.type = "scan" → r.success = true → r.data = some d →
      scanRun (pre ++ r :: rest) = some (.resolve (scanResolveData d))) := by
  have hnone : ∀ r' ∈ pre, scanHandler r' = none := fun r' h' =>
    scanHandler_none_of r' (hpre r' h').1 (hpre r' h').2
  have hrw := scanRun_append pre (r :: rest) hnone
  refine ⟨fun hp hs => ?_, fun hp hs => ?_, fun d hsc hsu hd => ?_⟩
  · rw [hrw]
    show (match scanHandler r with
          | some s => some s
          | none => scanRun rest) =
      some (.reject (jsOrElse r.error "Window selection cancelled"))
    have : scanHandler r =
        some (.reject (jsOrElse r.error "Window selection cancelled")) := by
      unfold scanHandler
      simp [hp, hs]
    rw [this]
  · have hn : scanHandler r = none :=
      scanHandler_none_of r (by simp [hp]) (fun _ => hs)
    refine ⟨hn, ?_⟩
    rw [hrw]
    show (match scanHandler r with
          | some s => some s
          | none => scanRun rest) = scanRun rest
    rw [hn]
  · rw [hrw]
    show (match scanHandler r with
          | some s => some s
          | none => scanRun rest) = some (.resolve (scanResolveData d))
    have : scanHandler r = some (.resolve (scanResolveData d)) := by
      unfold scanHandler
      simp [hsc, hsu, hd]
    rw [this]

/-- Witness for C2: a successful intermediate pick then a scan success
resolves with the payload, and a lone failing pick rejects with its error. -/
theorem claim_C2_witness :
    scanRun ([pickOkResp] ++ scanOkResp :: []) =
      some (.resolve (scanResolveData scanOkData)) ∧
    scanRun ([] ++ pickFailResp :: []) =
      some (.reject (jsOrElse pickFailResp.error "Window selection cancelled")) :=
  ⟨(claim_C2_scan_pick_interleaving [pickOkResp] [] scanOkResp
      (by
        intro r' hr'
        rw [List.mem_singleton] at hr'
        subst hr'
        exact ⟨by decide, fun _ => rfl⟩)).2.2 scanOkData rfl rfl rfl,
   (claim_C2_scan_pick_interleaving [] [] pickFailResp
      (by intro r' hr'; cases hr')).1 rfl rfl⟩

/-- A response that is not `pick`-typed does not settle the pick handler. -/
lemma pickHandler_none_of (r : CLIResponse) (h : r.type ≠ "pick") :
    pickHandler r = none := by
  unfold pickHandler
  simp [h]

/-- A settled-and-detached pick call ignores every further occurrence. -/
lemma pickStep_absorbed (s : PickCallState) (hs : s.handlerActive = false)
    (ht : s.timerActive = false) (t : ℕ) (o : PickOcc) : pickStep s t o = s := by
  cases o <;> simp [pickStep, hs, ht]

/-- A settled-and-detached pick call ignores every further schedule. -/
lemma foldl_pickStep_absorbed (l : List (ℕ × PickOcc)) (s : PickCallState)
    (hs : s.handlerActive = false) (ht : s.timerActive = false) :
    l.foldl (fun s p => pickStep s p.1 p.2) s = s := by
  induction l with
  | nil => rfl
  | cons p rest ih =>
      rw [List.foldl_cons, pickStep_absorbed s hs ht]
      exact ih

/-- Before any `pick`-typed response and before the timer fires, the call
stays pending with listener and timer installed. -/
lemma foldl_pickStep_pending (pre : List (ℕ × PickOcc))
    (hresp : ∀ p ∈ pre, ∀ r, p.2 = PickOcc.resp r → r.type ≠ "pick")
    (htimer : ∀ p ∈ pre, p.2 ≠ PickOcc.timerFire) :
    pre.foldl (fun s p => pickStep s p.1 p.2) pickInit = pickInit := by
  induction pre with
  | nil => rfl
  | cons p rest ih =>
      rw [List.foldl_cons]
      have hstep : pickStep pickInit p.1 p.2 = pickInit := by
        cases ho : p.2 with
        | timerFire => exact absurd ho (htimer p (List.mem_cons_self _ _))
        | resp r =>
            have hty : r.type ≠ "pick" := hresp p (List.mem_cons_self _ _) r ho
            simp [pickStep, pickInit, pickHandler_none_of r hty]
      rw [hstep]
      exact ih (fun p' hp' => hresp p' (List.mem_cons_of_mem _ hp'))
        (fun p' hp' => htimer p' (List.mem_cons_of_mem _ hp'))

/-- C10: if no `pick`-typed response arrives before the 60-second timer, the
call is still pending at every moment before the timer fires, rejects with
the timeout message exactly when the timer fires at 60000 ms, and afterwards
the listener is removed, so any late response (the arbitrary tail of the
schedule) leaves the outcome untouched. -/
theorem claim_C10_pick_timeout (pre post : List (ℕ × PickOcc))
    (hresp : ∀ p ∈ pre, ∀ r, p.2 = PickOcc.resp r → r.type ≠ "pick")
    (htimer : ∀ p ∈ pre, p.2 ≠ PickOcc.timerFire)
    (htime : ∀ p ∈ pre, p.1 ≤ 60000) :
    pickRun pre = pickInit ∧
    pickRun (pre ++ (60000, PickOcc.timerFire) :: post) =
      { handlerActive := false, timerActive := false,
        settled := some (60000, .reject "Window selection timed out") } := by
  have hpend := foldl_pickStep_pending pre hresp htimer
  refine ⟨hpend, ?_⟩
  unfold pickRun
  rw [List.foldl_append]
  unfold pickRun at hpend
  rw [hpend, List.foldl_cons]
  have hfire : pickStep pickInit 60000 PickOcc.timerFire =
      { handlerActive := false, timerActive := false,
        settled := some (60000, .reject "Window selection timed out") } := by
    simp [pickStep, pickInit]
  rw [hfire]
  exact foldl_pickStep_absorbed post _ rfl rfl

/-- Witness for C10: a `ready` response at 100 ms, the timer at 60000 ms, a
late successful pick at 70000 ms. -/
theorem claim_C10_witness :
    pickRun [(100, PickOcc.resp readyCLIResp)] = pickInit ∧
    pickRun ([(100, PickOcc.resp readyCLIResp)] ++
        (60000, PickOcc.timerFire) :: [(70000, PickOcc.resp pickOkResp)]) =
      { handlerActive := false, timerActive := false,
        settled := some (60000, .reject "Window selection timed out") } :=
  claim_C10_pick_timeout [(100, PickOcc.resp readyCLIResp)]
    [(70000, PickOcc.resp pickOkResp)]
    (by
      intro p hp r he
      rw [List.mem_singleton] at hp
      subst hp
      cases he
      decide)
    (by
      intro p hp
      rw [List.mem_singleton] at hp
      subst hp
      decide)
    (by
      intro p hp
      rw [List.mem_singleton] at hp
      subst hp
      decide)

end SlopOCR
